import Mathlib

/-!
Shallow embedding of `src/main.py` (a pass-through HTTP gateway over the
GeckoTerminal API) and proofs about the claims of its specification.

The embedded core is the helper `fetch_from_geckoterminal` (src/main.py
lines 20-44), which classifies the upstream HTTP outcome into a decoded
JSON success or a normalized `HTTPException`, and the inline
result-limiting post-processing of `get_trending_networks` /
`search_networks` (lines 57-58 and 75-76).
-/

namespace GeckoApi

/-- JSON values as returned by the upstream provider. Numbers are modelled as
integers (every value appearing in the claims is integral; floating point is
out of scope). Objects are association lists in insertion order, matching
Python dict iteration order; dicts produced by `json.loads` have unique keys. -/
inductive Json where
  | null : Json
  | bool (b : Bool) : Json
  | num (n : Int) : Json
  | str (s : String) : Json
  | arr (elems : List Json) : Json
  | obj (fields : List (String × Json)) : Json

/-- The normalized error raised by the helper (`fastapi.HTTPException` with a
`status_code` and a `detail` message); the spec calls it `NormalizedError`. -/
structure HTTPException where
  status_code : Nat
  detail : String
deriving DecidableEq

/-- One upstream HTTP response as seen by `requests.get`: its status code, its
body text (`response.text`), and the result of `response.json()` — either the
decoded value or the decode-exception message (in `requests`, a JSON decode
failure is a `RequestException` subclass, so it is caught by line 42). -/
structure UpstreamResponse where
  status_code : Nat
  text : String
  jsonBody : Except String Json

/-- Outcome of the outbound `requests.get` call: either a response was
obtained, or the transport failed (DNS/timeout/connection reset) raising a
`requests.RequestException` carrying a descriptive message (`str(e)`). -/
inductive UpstreamOutcome where
  | response (r : UpstreamResponse) : UpstreamOutcome
  | requestException (msg : String) : UpstreamOutcome

/-- src/main.py line 13. -/
def BASE_URL : String := "https://api.geckoterminal.com/api/v2"

/-- Python string slicing `s[:n]` for `n ≥ 0`: the first `n` characters
(codepoints), or all of `s` when it is shorter. -/
def pySliceStr (s : String) (n : Nat) : String := String.mk (s.toList.take n)

/-- Status classification of `fetch_from_geckoterminal`, src/main.py
lines 26-44: 200 → decoded JSON (a decode failure is caught by the
`except requests.RequestException` clause and becomes a 500); 400 → 400 with
the body text after a fixed prefix; 429 → 429 with a fixed message; any other
status → that status with the body truncated to 200 characters after a fixed
prefix; transport failure → 500. -/
def normalize_response (o : UpstreamOutcome) : Except HTTPException Json :=
  match o with
  | .requestException e => .error ⟨500, "❌ Connection Error: " ++ e⟩
  | .response r =>
    if r.status_code = 200 then
      match r.jsonBody with
      | .ok j => .ok j
      | .error e => .error ⟨500, "❌ Connection Error: " ++ e⟩
    else if r.status_code = 400 then
      .error ⟨400, "❌ Bad Request: " ++ r.text⟩
    else if r.status_code = 429 then
      .error ⟨429, "❌ Rate limit exceeded. Please try again later."⟩
    else
      .error ⟨r.status_code, "⚠ Unexpected Error: " ++ pySliceStr r.text 200⟩

/-- src/main.py lines 20-44: build the URL from `BASE_URL` and the endpoint,
issue the GET, and normalize the outcome. The network world is passed in as
the function `http_get` from (url, params) to the upstream outcome; `params`
is the query-parameter mapping (absent = `[]`). -/
def fetch_from_geckoterminal
    (http_get : String → List (String × String) → UpstreamOutcome)
    (endpoint : String) (params : List (String × String)) :
    Except HTTPException Json :=
  normalize_response (http_get (BASE_URL ++ endpoint) params)

/-- Python list slicing `xs[:stop]` for an `Int` stop: for `stop ≥ 0` the
first `stop` elements; for `stop < 0` the first `max (length + stop) 0`
elements (negative indices count from the end). -/
def pySliceList (stop : Int) (xs : List Json) : List Json :=
  if 0 ≤ stop then xs.take stop.toNat
  else xs.take (xs.length - stop.natAbs)

/-- Python `v == "data"` for a JSON value: only the string `"data"` compares
equal. -/
def isStrData : Json → Bool
  | .str s => s = "data"
  | _ => false

/-- Python substring search: `startsWithData l` holds when `l` starts with
the four characters of `"data"`. -/
def startsWithData : List Char → Bool
  | 'd' :: 'a' :: 't' :: 'a' :: _ => true
  | _ => false

/-- Python `"data" in s` for a string `s`: substring containment. -/
def hasDataSubstring : List Char → Bool
  | [] => false
  | c :: rest => startsWithData (c :: rest) || hasDataSubstring rest

/-- The dict assignment `result["data"] = v`: the binding at key `"data"`
receives the new value in place; all other bindings are untouched. -/
def setDataField (fields : List (String × Json)) (v : Json) :
    List (String × Json) :=
  fields.map (fun p => if p.1 = "data" then (p.1, v) else p)

/-- The result-limiting post-processing shared by `get_trending_networks` and
`search_networks` (src/main.py lines 57-58 and 75-76):

    if "data" in result and isinstance(result["data"], list):
        result["data"] = result["data"][:min(limit, 100)]
    return result

with Python's `in` and `[...]` semantics made explicit per payload type:
for a dict, `"data" in result` is key membership and `result["data"]` the
lookup; for a list, `in` is element membership and `["data"]` raises
`TypeError`; for a string, `in` is substring containment and `["data"]`
raises `TypeError`; for `None`/booleans/numbers, `in` itself raises
`TypeError`. A raised `TypeError` is the `.error` case. -/
def limit_data (limit : Int) (result : Json) : Except String Json :=
  match result with
  | .obj fields =>
    match fields.find? (fun p => p.1 == "data") with
    | some kv =>
      match kv.2 with
      | .arr xs =>
          .ok (.obj (setDataField fields (.arr (pySliceList (min limit 100) xs))))
      | _ => .ok (.obj fields)
    | none => .ok (.obj fields)
  | .arr xs =>
    if xs.any isStrData then
      .error "TypeError: list indices must be integers or slices, not str"
    else .ok (.arr xs)
  | .str s =>
    if hasDataSubstring s.toList then
      .error "TypeError: string indices must be integers"
    else .ok (.str s)
  | _ => .error "TypeError: argument of type is not iterable"

/-- A route handler fails either with the helper's `HTTPException` or with an
uncaught Python `TypeError` from the post-processing. -/
inductive HandlerFailure where
  | http (e : HTTPException) : HandlerFailure
  | pyTypeError (msg : String) : HandlerFailure

/-- src/main.py lines 48-60: fetch `/networks/trending` (no query params) and
apply the result-limiting post-processing with the requested `limit`. -/
def get_trending_networks
    (http_get : String → List (String × String) → UpstreamOutcome)
    (limit : Int) : Except HandlerFailure Json :=
  match fetch_from_geckoterminal http_get "/networks/trending" [] with
  | .error e => .error (.http e)
  | .ok result =>
    match limit_data limit result with
    | .error m => .error (.pyTypeError m)
    | .ok r => .ok r

/-- Evaluation lemma: the helper on an obtained response classifies by status
exactly as lines 31-41 do. -/
theorem fetch_eq_normalize
    (http_get : String → List (String × String) → UpstreamOutcome)
    (endpoint : String) (params : List (String × String)) :
    fetch_from_geckoterminal http_get endpoint params
      = normalize_response (http_get (BASE_URL ++ endpoint) params) := rfl

/-- Evaluation lemma: classification of an obtained response, by status. -/
theorem normalize_response_response (r : UpstreamResponse) :
    normalize_response (.response r)
      = if r.status_code = 200 then
          match r.jsonBody with
          | .ok j => .ok j
          | .error e => .error ⟨500, "❌ Connection Error: " ++ e⟩
        else if r.status_code = 400 then
          .error ⟨400, "❌ Bad Request: " ++ r.text⟩
        else if r.status_code = 429 then
          .error ⟨429, "❌ Rate limit exceeded. Please try again later."⟩
        else
          .error ⟨r.status_code, "⚠ Unexpected Error: " ++ pySliceStr r.text 200⟩ :=
  rfl

/-- Evaluation lemma: a transport exception becomes a 500. -/
theorem normalize_response_exception (e : String) :
    normalize_response (.requestException e)
      = .error ⟨500, "❌ Connection Error: " ++ e⟩ := rfl

/-- Claim C1: for every upstream response with status code 200 and a valid
JSON body, `fetch_from_geckoterminal` succeeds and returns exactly the decoded
JSON value of that body, unchanged. -/
theorem fetch_ok_on_200
    (http_get : String → List (String × String) → UpstreamOutcome)
    (endpoint : String) (params : List (String × String))
    (r : UpstreamResponse) (j : Json)
    (hresp : http_get (BASE_URL ++ endpoint) params = .response r)
    (hstatus : r.status_code = 200) (hjson : r.jsonBody = .ok j) :
    fetch_from_geckoterminal http_get endpoint params = .ok j := by
  rw [fetch_eq_normalize, hresp, normalize_response_response,
    if_pos hstatus, hjson]

/-- Witness for C1: the spec scenario — a 200 fixture with body
decoding to the object with field `data = [ obj with id = eth ]` is returned
unchanged. -/
theorem fetch_ok_on_200_witness :
    fetch_from_geckoterminal
      (fun _ _ => .response ⟨200, "",
        .ok (Json.obj [("data", Json.arr [Json.obj [("id", Json.str "eth")]])])⟩)
      "/networks" []
      = .ok (Json.obj [("data", Json.arr [Json.obj [("id", Json.str "eth")]])]) :=
  fetch_ok_on_200 _ "/networks" [] _ _ rfl rfl rfl

set_option maxRecDepth 10000 in
/-- Counterexample to claim C2 as stated: on an upstream 503 whose body is 200
characters of text, the normalized message is the 20-character prefix
`"⚠ Unexpected Error: "` followed by the body, 220 characters in all —
more than 200. -/
theorem fetch_unexpected_message_cex :
    fetch_from_geckoterminal
      (fun _ _ => .response ⟨503, String.mk (List.replicate 200 'a'), .error "x"⟩)
      "/networks" []
      = .error ⟨503, "⚠ Unexpected Error: " ++ String.mk (List.replicate 200 'a')⟩
    ∧ 200 < ("⚠ Unexpected Error: " ++ String.mk (List.replicate 200 'a')).length := by
  constructor
  · rfl
  · rw [String.length_append]
    have h1 : ("⚠ Unexpected Error: ").length = 20 := by decide
    have h2 : (String.mk (List.replicate 200 'a')).length = 200 := by
      show (List.replicate 200 'a').length = 200
      simp
    omega

/-- Claim C2 (amended): for every upstream response whose status is neither
200 nor 400 nor 429, the call fails with a `HTTPException` whose status equals
the upstream status and whose message is the fixed 20-character prefix
`"⚠ Unexpected Error: "` followed by the upstream body truncated to its first
200 characters — hence at most 220 characters long. -/
theorem fetch_unexpected_status
    (http_get : String → List (String × String) → UpstreamOutcome)
    (endpoint : String) (params : List (String × String))
    (r : UpstreamResponse)
    (hresp : http_get (BASE_URL ++ endpoint) params = .response r)
    (h200 : r.status_code ≠ 200) (h400 : r.status_code ≠ 400)
    (h429 : r.status_code ≠ 429) :
    fetch_from_geckoterminal http_get endpoint params
      = .error ⟨r.status_code, "⚠ Unexpected Error: " ++ pySliceStr r.text 200⟩
    ∧ ("⚠ Unexpected Error: " ++ pySliceStr r.text 200).length ≤ 220 := by
  constructor
  · rw [fetch_eq_normalize, hresp, normalize_response_response,
      if_neg h200, if_neg h400, if_neg h429]
  · rw [String.length_append]
    have h1 : ("⚠ Unexpected Error: ").length = 20 := by decide
    have h2 : (pySliceStr r.text 200).length ≤ 200 := by
      show (r.text.toList.take 200).length ≤ 200
      exact (List.length_take 200 r.text.toList).le.trans (min_le_left _ _)
    omega

/-- Witness for C2 (amended): a 503 with body `"boom"` yields status 503 and
message `"⚠ Unexpected Error: boom"`, within the 220-character bound. -/
theorem fetch_unexpected_status_witness :
    fetch_from_geckoterminal
      (fun _ _ => .response ⟨503, "boom", .error "x"⟩) "/networks" []
      = .error ⟨503, "⚠ Unexpected Error: " ++ pySliceStr "boom" 200⟩
    ∧ ("⚠ Unexpected Error: " ++ pySliceStr "boom" 200).length ≤ 220 :=
  fetch_unexpected_status _ "/networks" [] ⟨503, "boom", .error "x"⟩ rfl
    (by decide) (by decide) (by decide)

/-- Claim C3: for every upstream response with status code 429, the call fails
with a `HTTPException` whose status is exactly 429 and whose message is the
fixed constant `"❌ Rate limit exceeded. Please try again later."`,
independent of the upstream body (neither `r.text` nor `r.jsonBody` occurs in
the result). -/
theorem fetch_429_fixed_message
    (http_get : String → List (String × String) → UpstreamOutcome)
    (endpoint : String) (params : List (String × String))
    (r : UpstreamResponse)
    (hresp : http_get (BASE_URL ++ endpoint) params = .response r)
    (hstatus : r.status_code = 429) :
    fetch_from_geckoterminal http_get endpoint params
      = .error ⟨429, "❌ Rate limit exceeded. Please try again later."⟩ := by
  rw [fetch_eq_normalize, hresp, normalize_response_response,
    if_neg (by rw [hstatus]; decide), if_neg (by rw [hstatus]; decide),
    if_pos hstatus]

/-- Witness for C3: the spec scenario — a 429 fixture with body `"slow down"`
fails with status 429 and the fixed message, not `"slow down"`. -/
theorem fetch_429_fixed_message_witness :
    fetch_from_geckoterminal
      (fun _ _ => .response ⟨429, "slow down", .error "x"⟩)
      "/networks/eth/tokens" [("limit", "10"), ("page", "1")]
      = .error ⟨429, "❌ Rate limit exceeded. Please try again later."⟩ :=
  fetch_429_fixed_message _ "/networks/eth/tokens" [("limit", "10"), ("page", "1")]
    ⟨429, "slow down", .error "x"⟩ rfl rfl

/-- Counterexample to claim C4 as stated: on an upstream 400 with body
`"oops"`, the normalized message is `"❌ Bad Request: oops"`, which is not the
upstream body text `"oops"`. -/
theorem fetch_400_message_cex :
    fetch_from_geckoterminal
      (fun _ _ => .response ⟨400, "oops", .error "x"⟩) "/networks" []
      = .error ⟨400, "❌ Bad Request: oops"⟩
    ∧ "❌ Bad Request: oops" ≠ "oops" :=
  ⟨rfl, by decide⟩

/-- Claim C4 (amended): for every upstream response with status code 400, the
call fails with a `HTTPException` whose status is 400 and whose message is the
upstream body text prefixed with the fixed string `"❌ Bad Request: "`. -/
theorem fetch_400_body_message
    (http_get : String → List (String × String) → UpstreamOutcome)
    (endpoint : String) (params : List (String × String))
    (r : UpstreamResponse)
    (hresp : http_get (BASE_URL ++ endpoint) params = .response r)
    (hstatus : r.status_code = 400) :
    fetch_from_geckoterminal http_get endpoint params
      = .error ⟨400, "❌ Bad Request: " ++ r.text⟩ := by
  rw [fetch_eq_normalize, hresp, normalize_response_response,
    if_neg (by rw [hstatus]; decide), if_pos hstatus]

/-- Witness for C4 (amended): a 400 with body `"bad pair"` fails with status
400 and message `"❌ Bad Request: bad pair"`. -/
theorem fetch_400_body_message_witness :
    fetch_from_geckoterminal
      (fun _ _ => .response ⟨400, "bad pair", .error "x"⟩) "/networks" []
      = .error ⟨400, "❌ Bad Request: " ++ "bad pair"⟩ :=
  fetch_400_body_message _ "/networks" [] ⟨400, "bad pair", .error "x"⟩ rfl rfl

/-- Claim C5: for every transport-level failure of the outbound call (no HTTP
status obtained), the call fails with a `HTTPException` whose status is 500
and whose message describes the underlying transport failure (the exception
text after the fixed prefix `"❌ Connection Error: "`). -/
theorem fetch_transport_500
    (http_get : String → List (String × String) → UpstreamOutcome)
    (endpoint : String) (params : List (String × String)) (e : String)
    (hresp : http_get (BASE_URL ++ endpoint) params = .requestException e) :
    fetch_from_geckoterminal http_get endpoint params
      = .error ⟨500, "❌ Connection Error: " ++ e⟩ := by
  rw [fetch_eq_normalize, hresp, normalize_response_exception]

/-- Witness for C5: a DNS failure message is surfaced as a 500 carrying the
failure description. -/
theorem fetch_transport_500_witness :
    fetch_from_geckoterminal
      (fun _ _ => .requestException "Failed to resolve host") "/networks" []
      = .error ⟨500, "❌ Connection Error: " ++ "Failed to resolve host"⟩ :=
  fetch_transport_500 _ "/networks" [] "Failed to resolve host" rfl

/-- Claim C7: every invocation of the helper has a total and exclusive
outcome — either it succeeds with a decoded JSON payload and with no error, or
it fails with exactly one `HTTPException` and yields no payload; no outcome
mixes data with an error. -/
theorem fetch_total_exclusive
    (http_get : String → List (String × String) → UpstreamOutcome)
    (endpoint : String) (params : List (String × String)) :
    (∃ j, fetch_from_geckoterminal http_get endpoint params = .ok j ∧
        ∀ e, fetch_from_geckoterminal http_get endpoint params ≠ .error e) ∨
    (∃ e, fetch_from_geckoterminal http_get endpoint params = .error e ∧
        ∀ j, fetch_from_geckoterminal http_get endpoint params ≠ .ok j) := by
  rcases hfe : fetch_from_geckoterminal http_get endpoint params with e | j
  · exact Or.inr ⟨e, rfl, fun j h => Except.noConfusion h⟩
  · exact Or.inl ⟨j, rfl, fun e h => Except.noConfusion h⟩

/-- Claim C8: the helper is deterministic — two calls with identical endpoint
and query parameters against the same fixed upstream world produce identical
outcomes; no hidden state influences the result. -/
theorem fetch_deterministic
    (http_get : String → List (String × String) → UpstreamOutcome)
    (e1 e2 : String) (p1 p2 : List (String × String))
    (he : e1 = e2) (hp : p1 = p2) :
    fetch_from_geckoterminal http_get e1 p1
      = fetch_from_geckoterminal http_get e2 p2 := by
  rw [he, hp]

/-- Witness for C8: two identical calls against a fixed 200 fixture coincide. -/
theorem fetch_deterministic_witness :
    fetch_from_geckoterminal
      (fun _ _ => .response ⟨200, "", .ok Json.null⟩) "/networks" []
      = fetch_from_geckoterminal
        (fun _ _ => .response ⟨200, "", .ok Json.null⟩) "/networks" [] :=
  fetch_deterministic _ "/networks" "/networks" [] [] rfl rfl

/-- Evaluation lemma: the post-processing on a dict payload keys on the
`"data"` lookup. -/
theorem limit_data_obj_eq (limit : Int) (fields : List (String × Json)) :
    limit_data limit (Json.obj fields)
      = match fields.find? (fun p => p.1 == "data") with
        | some kv =>
          match kv.2 with
          | Json.arr xs =>
              .ok (Json.obj (setDataField fields
                (Json.arr (pySliceList (min limit 100) xs))))
          | _ => .ok (Json.obj fields)
        | none => .ok (Json.obj fields) := rfl

/-- Nonnegative slicing stop: `xs[:stop]` is `take stop`. -/
theorem pySliceList_nonneg (stop : Int) (hs : 0 ≤ stop) (xs : List Json) :
    pySliceList stop xs = xs.take stop.toNat := by
  unfold pySliceList
  rw [if_pos hs]

/-- Counterexample to claim C6 as stated: at requested limit `-1` on a
two-element `data` list, the code keeps the first element (Python negative
slicing), while taking the first `min (-1) 100` elements (a nonpositive
count) would keep none. -/
theorem limit_data_negative_cex :
    limit_data (-1) (Json.obj [("data", Json.arr [Json.null, Json.bool true])])
      = .ok (Json.obj [("data", Json.arr [Json.null])])
    ∧ ([Json.null, Json.bool true].take ((min (-1 : Int) 100).toNat))
        ≠ [Json.null] := by
  constructor
  · rfl
  · have h : ((min (-1 : Int) 100).toNat) = 0 := rfl
    rw [h]
    simp

/-- Claim C6 (amended): for every NONNEGATIVE requested limit `n` and every
successful payload whose `"data"` field holds a list, the post-processing
replaces that list with its first `min n 100` elements in their original
order (so a requested limit of 500 keeps at most 100 elements, and a
50-element list at requested limit 10 keeps exactly its first 10); all other
fields are kept by `setDataField`. -/
theorem limit_data_nonneg_take (limit : Int) (hl : 0 ≤ limit)
    (fields : List (String × Json)) (xs : List Json)
    (hfind : fields.find? (fun p => p.1 == "data") = some ("data", Json.arr xs)) :
    limit_data limit (Json.obj fields)
      = .ok (Json.obj (setDataField fields
          (Json.arr (xs.take ((min limit 100).toNat))))) := by
  have h : pySliceList (min limit 100) xs = xs.take ((min limit 100).toNat) :=
    pySliceList_nonneg _ (le_min hl (by norm_num)) xs
  rw [limit_data_obj_eq, hfind, ← h]

/-- Witness for C6 (amended): the two spec scenarios — a 50-element `data`
list at requested limit 10, and a 101-element list at requested limit 500
(clamped to 100 before slicing). -/
theorem limit_data_nonneg_take_witness :
    limit_data 10 (Json.obj [("data", Json.arr (List.replicate 50 Json.null))])
      = .ok (Json.obj (setDataField [("data", Json.arr (List.replicate 50 Json.null))]
          (Json.arr ((List.replicate 50 Json.null).take ((min (10 : Int) 100).toNat)))))
    ∧ limit_data 500 (Json.obj [("data", Json.arr (List.replicate 101 Json.null))])
      = .ok (Json.obj (setDataField [("data", Json.arr (List.replicate 101 Json.null))]
          (Json.arr ((List.replicate 101 Json.null).take ((min (500 : Int) 100).toNat))))) :=
  ⟨limit_data_nonneg_take 10 (by norm_num) _ _ rfl,
   limit_data_nonneg_take 500 (by norm_num) _ _ rfl⟩

/-- Counterexample to claim C9 as stated: a successful payload that is the
bare number 5 has no `"data"` key, yet the post-processing does not return it
unchanged — Python raises `TypeError` on `"data" in 5`. -/
theorem limit_data_nonobj_cex :
    limit_data 10 (Json.num 5)
      = .error "TypeError: argument of type is not iterable"
    ∧ limit_data 10 (Json.num 5) ≠ .ok (Json.num 5) :=
  ⟨rfl, fun h => Except.noConfusion h⟩

/-- Claim C9 (amended): for every successful OBJECT (dict) payload, the
post-processing succeeds and leaves every field whose key is not `"data"`
unchanged at its position; and when the object has no `"data"` key or its
`"data"` value is not a list, the whole payload is returned unchanged, for
every requested limit. (Non-dict payloads can instead raise a `TypeError`
from the membership test or the string/list indexing.) -/
theorem limit_data_obj_frame (limit : Int) (fields : List (String × Json)) :
    (∃ fields2 : List (String × Json),
        limit_data limit (Json.obj fields) = .ok (Json.obj fields2) ∧
        fields2.length = fields.length ∧
        ∀ i (h : i < fields.length) (h2 : i < fields2.length),
          (fields.get ⟨i, h⟩).1 ≠ "data" →
            fields2.get ⟨i, h2⟩ = fields.get ⟨i, h⟩) ∧
    ((∀ kv, fields.find? (fun p => p.1 == "data") = some kv →
        ∀ xs, kv.2 ≠ Json.arr xs) →
      limit_data limit (Json.obj fields) = .ok (Json.obj fields)) := by
  rw [limit_data_obj_eq]
  cases hf : fields.find? (fun p => p.1 == "data") with
  | none =>
    exact ⟨⟨fields, rfl, rfl, fun i h h2 _ => rfl⟩, fun _ => rfl⟩
  | some kv =>
    obtain ⟨k, v⟩ := kv
    cases v with
    | arr xs =>
      constructor
      · refine ⟨setDataField fields (Json.arr (pySliceList (min limit 100) xs)),
          rfl, List.length_map fields _, ?_⟩
        intro i h h2 hne
        show (fields.map _).get ⟨i, h2⟩ = fields.get ⟨i, h⟩
        simp only [List.get_eq_getElem] at hne ⊢
        simp only [List.getElem_map]
        rw [if_neg hne]
      · intro hforall
        exact absurd rfl (hforall (k, Json.arr xs) rfl xs)
    | null => exact ⟨⟨fields, rfl, rfl, fun i h h2 _ => rfl⟩, fun _ => rfl⟩
    | bool b => exact ⟨⟨fields, rfl, rfl, fun i h h2 _ => rfl⟩, fun _ => rfl⟩
    | num n => exact ⟨⟨fields, rfl, rfl, fun i h h2 _ => rfl⟩, fun _ => rfl⟩
    | str s => exact ⟨⟨fields, rfl, rfl, fun i h h2 _ => rfl⟩, fun _ => rfl⟩
    | obj fs => exact ⟨⟨fields, rfl, rfl, fun i h h2 _ => rfl⟩, fun _ => rfl⟩

/-- Witness for C9 (amended): an object whose `"data"` is a two-element list,
next to a `"meta"` field — the frame part exhibits the output fields, and the
no-list implication is discharged vacuously at an object without a `"data"`
key. -/
theorem limit_data_obj_frame_witness :
    (∃ fields2 : List (String × Json),
        limit_data 1 (Json.obj [("meta", Json.str "m")])
          = .ok (Json.obj fields2) ∧
        fields2.length = [("meta", Json.str "m")].length ∧
        ∀ i (h : i < [("meta", Json.str "m")].length)
            (h2 : i < fields2.length),
          ([("meta", Json.str "m")].get ⟨i, h⟩).1 ≠ "data" →
            fields2.get ⟨i, h2⟩ = [("meta", Json.str "m")].get ⟨i, h⟩) ∧
    ((∀ kv, [("meta", Json.str "m")].find? (fun p => p.1 == "data") = some kv →
        ∀ xs, kv.2 ≠ Json.arr xs) →
      limit_data 1 (Json.obj [("meta", Json.str "m")])
        = .ok (Json.obj [("meta", Json.str "m")])) :=
  limit_data_obj_frame 1 [("meta", Json.str "m")]

/-- Claim C10: for every NEGATIVE requested limit and every payload whose
`"data"` field is a list of length L, the post-processing keeps the first
`max (L + limit) 0` elements of that list (Python negative-slice semantics,
here `(↑L + limit).toNat`), not `min limit 100` of them and not zero. -/
theorem limit_data_negative_slice (limit : Int) (hneg : limit < 0)
    (fields : List (String × Json)) (xs : List Json)
    (hfind : fields.find? (fun p => p.1 == "data") = some ("data", Json.arr xs)) :
    limit_data limit (Json.obj fields)
      = .ok (Json.obj (setDataField fields
          (Json.arr (xs.take (((xs.length : Int) + limit).toNat))))) := by
  have h : pySliceList (min limit 100) xs
      = xs.take (((xs.length : Int) + limit).toNat) := by
    unfold pySliceList
    rw [min_eq_left (by omega : limit ≤ 100), if_neg (by omega)]
    congr 1
    omega
  rw [limit_data_obj_eq, hfind, ← h]

/-- Witness for C10: requested limit `-1` on a two-element `data` list keeps
its first `2 - 1 = 1` element. -/
theorem limit_data_negative_slice_witness :
    limit_data (-1) (Json.obj [("data", Json.arr [Json.null, Json.bool true])])
      = .ok (Json.obj (setDataField [("data", Json.arr [Json.null, Json.bool true])]
          (Json.arr ([Json.null, Json.bool true].take
            ((([Json.null, Json.bool true].length : Int) + (-1)).toNat))))) :=
  limit_data_negative_slice (-1) (by norm_num) _ _ rfl

end GeckoApi
